import Mathlib

/-!
Verification development for `lola.py`: a "warm worker" process runner with a
subprocess-compatible API (`call` / `check_call` / `check_output`).

The embedding follows the source:
* `mkfd` / `encodeSlots`   — client-side stdio-slot encoding in `Runner._call`
  (lines 108-120): sentinels (`None`, `subprocess.STDOUT`, `subprocess.PIPE`)
  pass through the wire unchanged, real descriptors are appended to the `fds`
  list and replaced by their positional index.
* `resolveSlot`            — worker-side resolution `_fd_map.get(slot, slot)`
  in `_PyPopen.__init__` (lines 168-171), where `_fd_map` is the dict
  `(idx, recvfd())  for idx in range(num_fds)` built in `listen` (lines 142-145).
* `exec_python_exit`       — the exit-code translation at the end of
  `_PyPopen.exec_python` (lines 193-214).
* `jobReply` / `pyPopenRun`— one worker-side job: `_PyPopen(...)` +
  `communicate()` + `poll()` (lines 146-148).  `_PyPopen.__init__` raises a
  bare `ValueError()` when `shell` is set (lines 165-166), before
  `subprocess.Popen.__init__` is reached, i.e. before any child is forked.
* `listen`                 — the worker loop (lines 135-149).  Only
  `cnx.recv()` is guarded (by `except EOFError: break`); an exception raised
  while building `_PyPopen` escapes the loop and kills the worker process.
* `Runner_close`, `Runner_call`, `Runner_check_call`, `Runner_check_output`
  — the client handle (lines 37-132).
* `applyEnv`               — the environment replacement in `exec_python`
  (lines 187-191): delete every inherited key not in `env`, then
  `os.environ.update(env)`.

The job body (`execfile`) is out of scope in the spec; it is modelled as an
external collaborator (`Body`): an outcome (how the `execfile` call ends) plus
the bytes it wrote to its stdout / stderr descriptors.  `os._exit(c)` is
modelled as the child terminating with code `c` (kernel-level truncation of
wait statuses is OS behaviour outside this code).  Captured byte strings are
modelled as `String`.
-/

namespace Lola

/-- `subprocess.PIPE` sentinel (the int `-1`). -/
def PIPE : Int := -1

/-- `subprocess.STDOUT` sentinel (the int `-2`). -/
def STDOUT : Int := -2

/-- A stdio argument as the caller passes it to `Runner._call`:
`None`, `subprocess.STDOUT`, `subprocess.PIPE`, a raw integer descriptor, or a
file object (represented by its `fileno()`). -/
inductive StdioArg
  | inherit
  | stdoutSentinel
  | pipe
  | rawFd (fd : Int)
  | fileObj (fileno : Int)
deriving DecidableEq, Repr

/-- `mkfd` from `Runner._call` (lines 109-116).  Input: the argument and the
`fds` list accumulated so far; output: the value placed in the wire message
for this slot, and the updated `fds` list.  `fp in (None, STDOUT, PIPE)` is
membership by equality, so a raw integer descriptor equal to `-1` or `-2` is
treated as the corresponding sentinel. -/
def mkfd : StdioArg → List Int → Option Int × List Int
  | .inherit, fds => (none, fds)
  | .stdoutSentinel, fds => (some STDOUT, fds)
  | .pipe, fds => (some PIPE, fds)
  | .rawFd fd, fds =>
      if fd = STDOUT ∨ fd = PIPE then (some fd, fds)
      else (some (fds.length : Int), fds ++ [fd])
  | .fileObj n, fds => (some (fds.length : Int), fds ++ [n])

/-- The slot encoding done by `Runner._call` (lines 118-120): stdin first,
then stdout, then stderr, threading the `fds` list. -/
def encodeSlots (stdin stdout stderr : StdioArg) :
    (Option Int × Option Int × Option Int) × List Int :=
  let r1 := mkfd stdin []
  let r2 := mkfd stdout r1.2
  let r3 := mkfd stderr r2.2
  ((r1.1, r2.1, r3.1), r3.2)

/-- Worker-side slot resolution `_fd_map.get(slot, slot)` (lines 169-171).
`_fd_map` has keys `0 .. num_fds - 1`, holding the received descriptors in
receive order; any other wire value (including `None` and negative sentinels)
passes through unchanged. -/
def resolveSlot (fds : List Int) : Option Int → Option Int
  | none => none
  | some i => if 0 ≤ i ∧ i.toNat < fds.length then some (fds.getD i.toNat 0) else some i

/-- How the `execfile(executable, p_globals)` call in `exec_python` ends:
a `SystemExit` with an int code, with `None`, or with some other "reason"
object; an arbitrary unhandled exception; or a normal return. -/
inductive BodyOutcome
  | sysExitInt (code : Int)
  | sysExitNone
  | sysExitReason (reason : String)
  | fault (traceback : String)
  | completes
deriving DecidableEq, Repr

/-- Result of the child-side exit translation: the code passed to `os._exit`
and the text that the translation itself writes to the child's stderr stream
(the exit "reason" on the code-1 path, the traceback on the code-255 path). -/
structure ChildExit where
  code : Int
  stderrText : String
deriving DecidableEq, Repr

/-- Exit-code translation at the end of `_PyPopen.exec_python` (lines
199-214): `SystemExit` with an int code passes the code to `os._exit`
unchanged; code `None` exits 0; any other `SystemExit` code is printed to
stderr and exits 1; an unhandled exception prints a traceback to stderr and
exits 255; normal return exits 0. -/
def exec_python_exit : BodyOutcome → ChildExit
  | .sysExitInt c => ⟨c, ""⟩
  | .sysExitNone => ⟨0, ""⟩
  | .sysExitReason r => ⟨1, r⟩
  | .fault tb => ⟨255, tb⟩
  | .completes => ⟨0, ""⟩

/-- The external job body: how it terminates and what it wrote to the stdout
and stderr descriptors it was given.  When the caller requested
stderr-to-stdout merging, `stdoutData` is the byte stream arriving on the
child's stdout descriptor (the body's interleaved writes). -/
structure Body where
  outcome : BodyOutcome
  stdoutData : String
  stderrData : String
deriving DecidableEq, Repr

/-- The wire request tuple sent by `Runner._call` (lines 122-125), with the
fields that carry data (`preexec_fn` and `startupinfo` are always `None` on
the wire and are omitted). -/
structure Request where
  args : List String
  bufsize : Int := 0
  executable : Option String := none
  stdin : Option Int := none
  stdout : Option Int := none
  stderr : Option Int := none
  closeFds : Bool := false
  shell : Bool := false
  cwd : Option String := none
  env : Option (List (String × String)) := none
  universalNewlines : Bool := false
  creationflags : Int := 0
deriving DecidableEq, Repr

/-- The worker's reply tuple `(retcode, stdout, stderr)` (line 149); captured
streams are `none` unless the corresponding slot was `PIPE`. -/
structure Reply where
  exitCode : Int
  stdout : Option String
  stderr : Option String
deriving DecidableEq, Repr

/-- One job executed by the worker when `shell` is not set: resolve the three
slots against the received descriptors, fork the child (which runs
`exec_python`), then `communicate()` + `poll()`.  A stream is captured exactly
when its resolved slot is `PIPE`; when stderr is merged to stdout
(`subprocess.STDOUT`), the text written by the exit translation lands on the
child's stdout (stdout is flushed before the translation writes, so the
translation text follows the body's stdout bytes). -/
def jobReply (req : Request) (fds : List Int) (body : Body) : Reply :=
  let stdoutR := resolveSlot fds req.stdout
  let stderrR := resolveSlot fds req.stderr
  let ce := exec_python_exit body.outcome
  { exitCode := ce.code
  , stdout :=
      if stdoutR = some PIPE then
        some (body.stdoutData ++ (if stderrR = some STDOUT then ce.stderrText else ""))
      else none
  , stderr :=
      if stderrR = some PIPE then some (body.stderrData ++ ce.stderrText)
      else none }

/-- `_PyPopen(*args, _fd_map=fds)` + `communicate()` + `poll()` (lines
146-148): when `shell` is set, `_PyPopen.__init__` raises a bare
`ValueError()` (lines 165-166) before `subprocess.Popen.__init__` runs — no
child is forked and the job body is never invoked; the error is `.error ()`.
Otherwise the job runs and a reply is produced. -/
def pyPopenRun (req : Request) (fds : List Int) (body : Body) : Except Unit Reply :=
  if req.shell then .error ()
  else .ok (jobReply req fds body)

/-- One received envelope in the worker loop: the request tuple, the
descriptors received (in send order), and the behaviour of the job body. -/
structure Incoming where
  req : Request
  fds : List Int
  body : Body
deriving DecidableEq, Repr

/-- How the worker process ends. -/
inductive WorkerEnd
  | cleanEOF
  | crashed
deriving DecidableEq, Repr

/-- The worker loop `listen` (lines 135-149) over the stream of envelopes the
client will send.  Only `cnx.recv()` is guarded by `except EOFError`: end of
stream breaks the loop cleanly, but an exception raised while constructing
`_PyPopen` (the `shell` `ValueError`) escapes the loop, so the remaining
envelopes are never answered and the worker process dies. -/
def listen : List Incoming → List Reply × WorkerEnd
  | [] => ([], .cleanEOF)
  | j :: rest =>
    match pyPopenRun j.req j.fds j.body with
    | .error _ => ([], .crashed)
    | .ok r =>
      let p := listen rest
      (r :: p.1, p.2)

/-- Errors a client-side operation can raise. -/
inductive RError
  | runnerClosed
  | eofError
  | closeFault
  | calledProcessError (returncode : Int) (cmd : List String) (output : Option String)
deriving DecidableEq, Repr

/-- The client handle's mutable state: `self._cnx` and `self._listener`
(both set at construction, both assigned `None` by `close`). -/
structure RunnerState where
  cnx : Option Unit
  listener : Option Unit
deriving DecidableEq, Repr

/-- The state right after `Runner.__init__`: connection and listener held. -/
def RunnerState.openState : RunnerState := ⟨some (), some ()⟩

/-- `Runner._expect_connected` (lines 130-132): `ValueError` when
`self._cnx is None`. -/
def expect_connected (st : RunnerState) : Except RError Unit :=
  if st.cnx = none then .error .runnerClosed else .ok ()

/-- `Runner.close` (lines 37-45).  First `_expect_connected` (so a second
`close` raises `ValueError` and leaves the state untouched); then
`self._cnx.close()` inside `try`, `self._listener.close()` inside the nested
`try` of its `finally`, and the innermost `finally` unconditionally assigns
`self._cnx = self._listener = None`.  The flags say whether each underlying
`close()` raises; an exception from the listener close replaces one from the
connection close (Python 2 `finally` semantics), and either way both
references are cleared. -/
def Runner_close (st : RunnerState) (cnxCloseFails listenerCloseFails : Bool) :
    Except RError Unit × RunnerState :=
  if st.cnx = none then (.error .runnerClosed, st)
  else
    let st' : RunnerState := ⟨none, none⟩
    if listenerCloseFails then (.error .closeFault, st')
    else if cnxCloseFails then (.error .closeFault, st')
    else (.ok (), st')

/-- The keyword options of `Runner._call` that carry data (others are passed
through as defaults on the wire). -/
structure CallOpts where
  stdin : StdioArg := .inherit
  stdout : StdioArg := .inherit
  stderr : StdioArg := .inherit
  shell : Bool := false
  cwd : Option String := none
  env : Option (List (String × String)) := none

/-- The wire envelope built by `Runner._call` (lines 108-125): the request
tuple (slots encoded by `mkfd`) and the descriptor list to transfer. -/
def encodeRequest (args : List String) (opts : CallOpts) : Request × List Int :=
  let enc := encodeSlots opts.stdin opts.stdout opts.stderr
  ({ args := args, stdin := enc.1.1, stdout := enc.1.2.1, stderr := enc.1.2.2
   , shell := opts.shell, cwd := opts.cwd, env := opts.env }, enc.2)

/-- `Runner._call` (lines 101-128) composed with the worker's handling of the
one envelope it sends: check connected, encode the three slots with `mkfd`,
send the request and descriptors, and `recv` the reply.  When the request has
`shell` set the worker dies without replying (see `listen`), so the blocking
`recv` on the client raises `EOFError`. -/
def Runner_call_raw (st : RunnerState) (args : List String) (opts : CallOpts)
    (body : Body) : Except RError Reply :=
  match expect_connected st with
  | .error e => .error e
  | .ok _ =>
    let er := encodeRequest args opts
    match pyPopenRun er.1 er.2 body with
    | .error _ => .error .eofError
    | .ok r => .ok r

/-- `Runner.call` (lines 53-60): return the reply's exit code. -/
def Runner_call (st : RunnerState) (args : List String) (opts : CallOpts)
    (body : Body) : Except RError Int :=
  match Runner_call_raw st args opts body with
  | .error e => .error e
  | .ok r => .ok r.exitCode

/-- `Runner.check_call` (lines 62-76): run `call`; on a truthy (nonzero)
return code raise `CalledProcessError(retcode, cmd)` where `cmd` is the
caller-supplied argv. -/
def Runner_check_call (st : RunnerState) (args : List String) (opts : CallOpts)
    (body : Body) : Except RError Int :=
  match Runner_call st args opts body with
  | .error e => .error e
  | .ok retcode =>
    if retcode ≠ 0 then .error (.calledProcessError retcode args none)
    else .ok retcode

/-- `Runner.check_output` (lines 78-99): `_call` with `stdout=subprocess.PIPE`
(the caller cannot supply a stdout argument); on a nonzero code raise
`CalledProcessError(retcode, cmd)` with the captured stdout attached as its
`output`, else return the captured stdout. -/
def Runner_check_output (st : RunnerState) (args : List String)
    (stdin stderr : StdioArg) (shell : Bool) (cwd : Option String)
    (env : Option (List (String × String))) (body : Body) :
    Except RError (Option String) :=
  match Runner_call_raw st args ⟨stdin, .pipe, stderr, shell, cwd, env⟩ body with
  | .error e => .error e
  | .ok r =>
    if r.exitCode ≠ 0 then .error (.calledProcessError r.exitCode args r.stdout)
    else .ok r.stdout

/-- Dict lookup on an association-list environment (first match wins; a
Python dict has unique keys). -/
def envLookup (k : String) : List (String × String) → Option String
  | [] => none
  | kv :: rest => if kv.1 = k then some kv.2 else envLookup k rest

/-- One `os.environ[k] = v` step of `dict.update`: overwrite the key if
present, else append the new pair. -/
def setKey (c : List (String × String)) (k v : String) : List (String × String) :=
  if (envLookup k c).isSome then c.map (fun kv => if kv.1 = k then (k, v) else kv)
  else c ++ [(k, v)]

/-- `os.environ.update(env)`: set each pair of `env` in order. -/
def dictUpdate (c e : List (String × String)) : List (String × String) :=
  e.foldl (fun acc kv => setKey acc kv.1 kv.2) c

/-- The environment handling in `exec_python` (lines 187-191): with no
explicit `env` the inherited environment is untouched; with an explicit `env`
every inherited key not in `env` is deleted (`del os.environ[key]`), then
`os.environ.update(env)` runs. -/
def applyEnv (cur : List (String × String)) :
    Option (List (String × String)) → List (String × String)
  | none => cur
  | some e => dictUpdate (cur.filter fun kv => (envLookup kv.1 e).isSome) e

/-- The descriptor/sentinel the caller supplied for a slot, as the child
should see it after the round-trip (spec view, for comparison with the
encode/transfer/resolve pipeline): sentinels pass through, a raw descriptor
or a file object's descriptor arrives as itself. -/
def clientView : StdioArg → Option Int
  | .inherit => none
  | .stdoutSentinel => some STDOUT
  | .pipe => some PIPE
  | .rawFd fd => some fd
  | .fileObj n => some n

end Lola

namespace Lola

/-! ### Helper lemmas -/

theorem resolveSlot_pipe (fds : List Int) : resolveSlot fds (some PIPE) = some PIPE := by
  simp only [resolveSlot, PIPE]
  norm_num

theorem appendIndex_resolves (fds suffix : List Int) (v : Int) :
    resolveSlot (fds ++ [v] ++ suffix) (some (fds.length : Int)) = some v := by
  have hcond : 0 ≤ ((fds.length : Int)) ∧
      ((fds.length : Int)).toNat < (fds ++ [v] ++ suffix).length := by
    refine ⟨Int.natCast_nonneg _, ?_⟩
    simp
  simp only [resolveSlot, if_pos hcond]
  have ht : ((fds.length : Int)).toNat = fds.length := by simp
  rw [ht, List.getD_eq_getElem?_getD, List.append_assoc,
    List.getElem?_append_right (le_refl _)]
  simp

theorem resolve_mkfd (s : StdioArg) (fds suffix : List Int) :
    resolveSlot ((mkfd s fds).2 ++ suffix) (mkfd s fds).1 = clientView s := by
  cases s with
  | inherit => simp [mkfd, resolveSlot, clientView]
  | stdoutSentinel =>
    simp only [mkfd, resolveSlot, clientView, STDOUT]
    norm_num
  | pipe =>
    simp only [mkfd, resolveSlot, clientView, PIPE]
    norm_num
  | rawFd fd =>
    by_cases h : fd = STDOUT ∨ fd = PIPE
    · have hneg : ¬ (0 ≤ fd) := by
        rcases h with h | h <;> simp [h, STDOUT, PIPE]
      simp [mkfd, resolveSlot, clientView, h, hneg]
    · have e : mkfd (.rawFd fd) fds = (some (fds.length : Int), fds ++ [fd]) := by
        simp [mkfd, h]
      rw [e]
      exact appendIndex_resolves fds suffix fd
  | fileObj n =>
    have e : mkfd (.fileObj n) fds = (some (fds.length : Int), fds ++ [n]) := by
      simp [mkfd]
    rw [e]
    exact appendIndex_resolves fds suffix n

theorem mkfd_extends (s : StdioArg) (fds : List Int) :
    ∃ d, (mkfd s fds).2 = fds ++ d := by
  cases s with
  | inherit => exact ⟨[], by simp [mkfd]⟩
  | stdoutSentinel => exact ⟨[], by simp [mkfd]⟩
  | pipe => exact ⟨[], by simp [mkfd]⟩
  | rawFd fd =>
    by_cases h : fd = STDOUT ∨ fd = PIPE
    · exact ⟨[], by simp [mkfd, h]⟩
    · exact ⟨[fd], by simp [mkfd, h]⟩
  | fileObj n => exact ⟨[n], by simp [mkfd]⟩

theorem Runner_call_raw_ok (st : RunnerState) (args : List String) (opts : CallOpts)
    (body : Body) (hopen : st.cnx ≠ none) (hsh : opts.shell = false) :
    Runner_call_raw st args opts body =
      .ok (jobReply (encodeRequest args opts).1 (encodeRequest args opts).2 body) := by
  unfold Runner_call_raw
  rw [expect_connected, if_neg hopen]
  have hr : (encodeRequest args opts).1.shell = false := hsh
  simp [pyPopenRun, hr]

theorem jobReply_exitCode (req : Request) (fds : List Int) (body : Body) :
    (jobReply req fds body).exitCode = (exec_python_exit body.outcome).code := rfl

theorem Runner_check_output_of_raw (st : RunnerState) (args : List String)
    (stdin stderr : StdioArg) (sh : Bool) (cwd : Option String)
    (env : Option (List (String × String))) (body : Body) (r : Reply)
    (h : Runner_call_raw st args ⟨stdin, .pipe, stderr, sh, cwd, env⟩ body = .ok r) :
    Runner_check_output st args stdin stderr sh cwd env body =
      if r.exitCode ≠ 0 then .error (.calledProcessError r.exitCode args r.stdout)
      else .ok r.stdout := by
  unfold Runner_check_output
  rw [h]

theorem closed_ops_fail (args : List String) (opts : CallOpts) (body : Body)
    (stdin stderr : StdioArg) (sh : Bool) (cwd : Option String)
    (env : Option (List (String × String))) (st : RunnerState) (hc : st.cnx = none) :
    Runner_call st args opts body = .error .runnerClosed ∧
    Runner_check_call st args opts body = .error .runnerClosed ∧
    Runner_check_output st args stdin stderr sh cwd env body = .error .runnerClosed := by
  refine ⟨?_, ?_, ?_⟩ <;>
    simp [Runner_call, Runner_check_call, Runner_check_output, Runner_call_raw,
      expect_connected, hc]

theorem envLookup_append (k : String) (a b : List (String × String)) :
    envLookup k (a ++ b) =
      match envLookup k a with
      | some v => some v
      | none => envLookup k b := by
  induction a with
  | nil => simp [envLookup]
  | cons kv rest ih =>
    by_cases h : kv.1 = k
    · simp [envLookup, h]
    · simp [envLookup, h, ih]

theorem envLookup_setKey_self (c : List (String × String)) (k v : String) :
    envLookup k (setKey c k v) = some v := by
  unfold setKey
  by_cases hp : (envLookup k c).isSome
  · rw [if_pos hp]
    induction c with
    | nil => simp [envLookup] at hp
    | cons kv rest ih =>
      by_cases h : kv.1 = k
      · simp [envLookup, h]
      · simp only [envLookup, h, if_false] at hp
        simp [envLookup, h, ih hp]
  · rw [if_neg hp]
    rw [envLookup_append]
    simp only [Option.not_isSome_iff_eq_none] at hp
    simp [hp, envLookup]

theorem envLookup_map_overwrite (c : List (String × String)) (k v k' : String)
    (hne : k' ≠ k) :
    envLookup k' (c.map fun kv => if kv.1 = k then (k, v) else kv) = envLookup k' c := by
  induction c with
  | nil => simp [envLookup]
  | cons kv rest ih =>
    rw [List.map_cons]
    by_cases h : kv.1 = k
    · rw [if_pos h]
      have hk : ¬ (k = k') := fun e => hne e.symm
      simp only [envLookup, h, if_neg hk]
      exact ih
    · rw [if_neg h]
      simp only [envLookup]
      by_cases h' : kv.1 = k'
      · rw [if_pos h', if_pos h']
      · rw [if_neg h', if_neg h']
        exact ih

theorem envLookup_setKey_other (c : List (String × String)) (k v k' : String)
    (hne : k' ≠ k) : envLookup k' (setKey c k v) = envLookup k' c := by
  unfold setKey
  by_cases hp : (envLookup k c).isSome
  · rw [if_pos hp]
    exact envLookup_map_overwrite c k v k' hne
  · rw [if_neg hp]
    rw [envLookup_append]
    cases hc : envLookup k' c with
    | some w => simp
    | none => simp [envLookup, Ne.symm hne]

theorem envLookup_eq_none_of_not_mem (k : String) (l : List (String × String))
    (h : k ∉ l.map Prod.fst) : envLookup k l = none := by
  induction l with
  | nil => rfl
  | cons kv rest ih =>
    simp only [List.map_cons, List.mem_cons, not_or] at h
    rw [envLookup, if_neg (fun e => h.1 e.symm)]
    exact ih h.2

theorem envLookup_dictUpdate (e : List (String × String))
    (c : List (String × String)) (k : String)
    (hnd : (e.map Prod.fst).Nodup) :
    envLookup k (dictUpdate c e) =
      match envLookup k e with
      | some v => some v
      | none => envLookup k c := by
  induction e generalizing c with
  | nil => simp [dictUpdate, envLookup]
  | cons kv rest ih =>
    simp only [List.map_cons, List.nodup_cons] at hnd
    have step : dictUpdate c (kv :: rest) = dictUpdate (setKey c kv.1 kv.2) rest := rfl
    rw [step, ih (setKey c kv.1 kv.2) hnd.2]
    by_cases h : kv.1 = k
    · subst h
      rw [envLookup_eq_none_of_not_mem kv.1 rest hnd.1]
      rw [envLookup, if_pos rfl, envLookup_setKey_self]
    · rw [envLookup_setKey_other c kv.1 kv.2 k (fun e => h e.symm)]
      rw [envLookup, if_neg h]

end Lola

namespace Lola

/-! ### Claim theorems -/

/-- C1: exit-code translation in the forked child.  For a non-shell request
whose stderr slot is captured, the worker's reply carries: the body's explicit
integer exit code unchanged; exit code 1 with the "reason" written to the
job's stderr for a non-integer, non-null `SystemExit` code; exit code 255 with
a traceback diagnostic on stderr for an unhandled internal fault; and exit
code 0 for normal completion or a null exit code. -/
theorem c1_exit_code_translation (req : Request) (fds : List Int) (body : Body)
    (hsh : req.shell = false) (hcap : req.stderr = some PIPE) :
    ∃ r, pyPopenRun req fds body = .ok r ∧
      (∀ c, body.outcome = .sysExitInt c → r.exitCode = c) ∧
      (∀ msg, body.outcome = .sysExitReason msg →
        r.exitCode = 1 ∧ r.stderr = some (body.stderrData ++ msg)) ∧
      (∀ tb, body.outcome = .fault tb →
        r.exitCode = 255 ∧ r.stderr = some (body.stderrData ++ tb)) ∧
      (body.outcome = .completes → r.exitCode = 0) ∧
      (body.outcome = .sysExitNone → r.exitCode = 0) := by
  have hres : resolveSlot fds req.stderr = some PIPE := by
    rw [hcap]; exact resolveSlot_pipe fds
  refine ⟨jobReply req fds body, by simp [pyPopenRun, hsh], ?_, ?_, ?_, ?_, ?_⟩
  · intro c hc; simp [jobReply, hc, exec_python_exit]
  · intro msg hm; simp [jobReply, hm, exec_python_exit, hres]
  · intro tb ht; simp [jobReply, ht, exec_python_exit, hres]
  · intro hc; simp [jobReply, hc, exec_python_exit]
  · intro hc; simp [jobReply, hc, exec_python_exit]

/-- C1 witness: a concrete faulting job on a stderr-capturing request yields
exit code 255 with the traceback appended to the job's stderr stream. -/
theorem c1_exit_code_translation_witness :
    ({ args := ["x.py"], stderr := some PIPE } : Request).shell = false ∧
    ({ args := ["x.py"], stderr := some PIPE } : Request).stderr = some PIPE ∧
    ∃ r, pyPopenRun { args := ["x.py"], stderr := some PIPE } []
        ⟨.fault "Traceback", "", "partial "⟩ = .ok r ∧
      r.exitCode = 255 ∧ r.stderr = some ("partial " ++ "Traceback") := by
  refine ⟨rfl, rfl, ?_⟩
  obtain ⟨r, hr, _, _, hf, _, _⟩ :=
    c1_exit_code_translation { args := ["x.py"], stderr := some PIPE } []
      ⟨.fault "Traceback", "", "partial "⟩ rfl rfl
  exact ⟨r, hr, (hf "Traceback" rfl).1, (hf "Traceback" rfl).2⟩

/-- C2: on an open Runner with a non-shell request, `call` returns exactly the
exit code the job body terminated with (the worker's translated code; an
explicit integer exit code passes through), and `call` never raises
`CalledProcessError` for any state, argv, options or body. -/
theorem c2_call_never_raises (st : RunnerState) (args : List String)
    (opts : CallOpts) (body : Body)
    (hopen : st.cnx ≠ none) (hsh : opts.shell = false) :
    Runner_call st args opts body = .ok ((exec_python_exit body.outcome).code) ∧
    ∀ (st' : RunnerState) (args' : List String) (opts' : CallOpts) (body' : Body)
      (r : Int) (c : List String) (o : Option String),
      Runner_call st' args' opts' body' ≠ .error (.calledProcessError r c o) := by
  constructor
  · unfold Runner_call
    rw [Runner_call_raw_ok st args opts body hopen hsh]
    exact rfl
  · intro st' args' opts' body' r c o
    unfold Runner_call Runner_call_raw
    by_cases h : st'.cnx = none
    · simp [expect_connected, h]
    · rw [expect_connected, if_neg h]
      by_cases hs : (encodeRequest args' opts').1.shell
      · simp [pyPopenRun, hs]
      · simp [pyPopenRun, hs]

/-- C2 witness: a body exiting 7 makes `call` return 7 on an open Runner, and
`call` never yields a `CalledProcessError`. -/
theorem c2_call_never_raises_witness :
    RunnerState.openState.cnx ≠ none ∧
    ({} : CallOpts).shell = false ∧
    Runner_call .openState ["j.py"] {} ⟨.sysExitInt 7, "", ""⟩ = .ok 7 := by
  have h := c2_call_never_raises .openState ["j.py"] {} ⟨.sysExitInt 7, "", ""⟩
    (by decide) rfl
  exact ⟨by decide, rfl, h.1⟩

/-- C3: on an open Runner with a non-shell request, `check_call` raises
`CalledProcessError` carrying the job's exit code and the caller-supplied argv
exactly when that code is nonzero, and returns 0 when the code is 0. -/
theorem c3_check_call_nonzero (st : RunnerState) (args : List String)
    (opts : CallOpts) (body : Body)
    (hopen : st.cnx ≠ none) (hsh : opts.shell = false) :
    ((exec_python_exit body.outcome).code ≠ 0 →
      Runner_check_call st args opts body
        = .error (.calledProcessError (exec_python_exit body.outcome).code args none)) ∧
    ((exec_python_exit body.outcome).code = 0 →
      Runner_check_call st args opts body = .ok 0) := by
  have hcall : Runner_call st args opts body
      = .ok ((exec_python_exit body.outcome).code) := by
    unfold Runner_call
    rw [Runner_call_raw_ok st args opts body hopen hsh]
    exact rfl
  constructor
  · intro hne
    unfold Runner_check_call
    rw [hcall]
    simp [hne]
  · intro h0
    unfold Runner_check_call
    rw [hcall, h0]
    simp

/-- C3 witness: a body exiting 2 makes `check_call` raise
`CalledProcessError(2, argv)`; a body exiting 0 makes it return 0. -/
theorem c3_check_call_nonzero_witness :
    RunnerState.openState.cnx ≠ none ∧
    ({} : CallOpts).shell = false ∧
    Runner_check_call .openState ["j.py"] {} ⟨.sysExitInt 2, "", ""⟩
      = .error (.calledProcessError 2 ["j.py"] none) ∧
    Runner_check_call .openState ["j.py"] {} ⟨.sysExitInt 0, "", ""⟩ = .ok 0 := by
  have h2 := c3_check_call_nonzero .openState ["j.py"] {} ⟨.sysExitInt 2, "", ""⟩
    (by decide) rfl
  have h0 := c3_check_call_nonzero .openState ["j.py"] {} ⟨.sysExitInt 0, "", ""⟩
    (by decide) rfl
  exact ⟨by decide, rfl, h2.1 (by decide), h0.2 rfl⟩

/-- C4: `check_output` on an open Runner always sends the request with the
stdout slot forced to `PIPE` (Capture); the captured stdout exists, equals the
body's stdout bytes (when the exit translation writes nothing to stderr), and
is returned on exit code 0 or attached (with the code) to the raised
`CalledProcessError` on a nonzero code. -/
theorem c4_check_output_capture (st : RunnerState) (args : List String)
    (stdin stderr : StdioArg) (cwd : Option String)
    (env : Option (List (String × String))) (body : Body)
    (hopen : st.cnx ≠ none) :
    (encodeRequest args ⟨stdin, .pipe, stderr, false, cwd, env⟩).1.stdout = some PIPE ∧
    ∃ out : String,
      ((exec_python_exit body.outcome).stderrText = "" → out = body.stdoutData) ∧
      Runner_check_output st args stdin stderr false cwd env body =
        (if (exec_python_exit body.outcome).code = 0 then .ok (some out)
         else .error (.calledProcessError (exec_python_exit body.outcome).code
           args (some out))) := by
  have henc : (encodeRequest args ⟨stdin, .pipe, stderr, false, cwd, env⟩).1.stdout
      = some PIPE := by
    simp [encodeRequest, encodeSlots, mkfd]
  refine ⟨henc, body.stdoutData ++
    (if resolveSlot (encodeRequest args ⟨stdin, .pipe, stderr, false, cwd, env⟩).2
        (encodeRequest args ⟨stdin, .pipe, stderr, false, cwd, env⟩).1.stderr = some STDOUT
     then (exec_python_exit body.outcome).stderrText else ""), ?_, ?_⟩
  · intro h
    rw [h]
    simp
  · have hco := Runner_check_output_of_raw st args stdin stderr false cwd env body _
      (Runner_call_raw_ok st args ⟨stdin, .pipe, stderr, false, cwd, env⟩ body hopen rfl)
    rw [hco]
    have hstdout : (jobReply (encodeRequest args ⟨stdin, .pipe, stderr, false, cwd, env⟩).1
        (encodeRequest args ⟨stdin, .pipe, stderr, false, cwd, env⟩).2 body).stdout
        = some (body.stdoutData ++
          (if resolveSlot (encodeRequest args ⟨stdin, .pipe, stderr, false, cwd, env⟩).2
              (encodeRequest args ⟨stdin, .pipe, stderr, false, cwd, env⟩).1.stderr
              = some STDOUT
           then (exec_python_exit body.outcome).stderrText else "")) := by
      unfold jobReply
      rw [henc, resolveSlot_pipe]
      simp
    rw [jobReply_exitCode, hstdout]
    by_cases h0 : (exec_python_exit body.outcome).code = 0
    · rw [if_pos h0]
      simp [h0]
    · rw [if_neg h0]
      simp [h0]

/-- C4 witness: a body exiting 3 after writing "out" to stdout makes
`check_output` raise `CalledProcessError(3, argv)` with output "out"; the
same body exiting 0 makes it return "out". -/
theorem c4_check_output_capture_witness :
    RunnerState.openState.cnx ≠ none ∧
    Runner_check_output .openState ["j.py"] .inherit .inherit false none none
      ⟨.sysExitInt 3, "out", ""⟩
      = .error (.calledProcessError 3 ["j.py"] (some "out")) ∧
    Runner_check_output .openState ["j.py"] .inherit .inherit false none none
      ⟨.sysExitInt 0, "out", ""⟩ = .ok (some "out") := by
  obtain ⟨-, out3, hout3, heq3⟩ :=
    c4_check_output_capture .openState ["j.py"] .inherit .inherit none none
      ⟨.sysExitInt 3, "out", ""⟩ (by decide)
  obtain ⟨-, out0, hout0, heq0⟩ :=
    c4_check_output_capture .openState ["j.py"] .inherit .inherit none none
      ⟨.sysExitInt 0, "out", ""⟩ (by decide)
  refine ⟨by decide, ?_, ?_⟩
  · rw [heq3, if_neg (by decide), hout3 rfl]
    rfl
  · rw [heq0, if_pos (show (exec_python_exit (⟨.sysExitInt 0, "out", ""⟩ : Body).outcome).code = 0 by decide), hout0 rfl]

/-- C5: `close()` on an open Runner succeeds exactly once; afterwards a second
`close()` and every `call`/`check_call`/`check_output` raise the closed-runner
`ValueError`, the closed state is never left by any operation, and only
`close()` performs the Open → Closed transition (the call operations do not
touch the state). -/
theorem c5_close_exactly_once (st : RunnerState) (hopen : st.cnx ≠ none) :
    (Runner_close st false false).1 = .ok () ∧
    (Runner_close st false false).2 = ⟨none, none⟩ ∧
    (Runner_close ⟨none, none⟩ false false).1 = .error .runnerClosed ∧
    (Runner_close ⟨none, none⟩ false false).2 = ⟨none, none⟩ ∧
    (∀ args opts body, Runner_call ⟨none, none⟩ args opts body = .error .runnerClosed) ∧
    (∀ args opts body, Runner_check_call ⟨none, none⟩ args opts body
        = .error .runnerClosed) ∧
    (∀ args stdin stderr sh cwd env body,
        Runner_check_output ⟨none, none⟩ args stdin stderr sh cwd env body
          = .error .runnerClosed) ∧
    (∀ st' f1 f2, ((Runner_close st' f1 f2).2).cnx = none) := by
  refine ⟨?_, ?_, ?_, ?_, ?_, ?_, ?_, ?_⟩
  · simp [Runner_close, hopen]
  · simp [Runner_close, hopen]
  · simp [Runner_close]
  · simp [Runner_close]
  · intro args opts body
    exact (closed_ops_fail args opts body .inherit .inherit false none none _ rfl).1
  · intro args opts body
    exact (closed_ops_fail args opts body .inherit .inherit false none none _ rfl).2.1
  · intro args stdin stderr sh cwd env body
    exact (closed_ops_fail args {} body stdin stderr sh cwd env
      (⟨none, none⟩ : RunnerState) rfl).2.2
  · intro st' f1 f2
    by_cases h : st'.cnx = none
    · simp [Runner_close, h]
    · simp only [Runner_close, if_neg h]
      cases f2 <;> cases f1 <;> simp

/-- C5 witness: on the freshly constructed open state, the first `close`
succeeds and the second raises, and a `call` after `close` raises. -/
theorem c5_close_exactly_once_witness :
    RunnerState.openState.cnx ≠ none ∧
    (Runner_close .openState false false).1 = .ok () ∧
    (Runner_close ⟨none, none⟩ false false).1 = .error .runnerClosed ∧
    Runner_call ⟨none, none⟩ ["j.py"] {} ⟨.completes, "", ""⟩
      = .error .runnerClosed := by
  have h := c5_close_exactly_once .openState (by decide)
  exact ⟨by decide, h.1, h.2.2.1, h.2.2.2.2.1 ["j.py"] {} ⟨.completes, "", ""⟩⟩

end Lola

namespace Lola

/-- C6 counterexample: the claim says a `shell=true` request is reported to
the caller as a configuration rejection and leaves the worker usable for
further requests.  On a concrete stream containing a `shell=true` request
followed by an ordinary request, the worker answers neither request and
crashes (no reply is produced for the second request, refuting "the worker
remains usable"), and the caller observes `EOFError` from the dead channel,
not a configuration error. -/
theorem c6_shell_config_counterexample :
    listen [⟨{ args := ["script.py"], shell := true }, [], ⟨.completes, "", ""⟩⟩,
            ⟨{ args := ["next.py"] }, [], ⟨.completes, "", ""⟩⟩]
      = ([], .crashed) ∧
    ¬ ((listen [⟨{ args := ["script.py"], shell := true }, [], ⟨.completes, "", ""⟩⟩,
                ⟨{ args := ["next.py"] }, [], ⟨.completes, "", ""⟩⟩]).2 = .cleanEOF ∧
       (listen [⟨{ args := ["script.py"], shell := true }, [], ⟨.completes, "", ""⟩⟩,
                ⟨{ args := ["next.py"] }, [], ⟨.completes, "", ""⟩⟩]).1.length = 2) ∧
    Runner_call .openState ["script.py"] { shell := true } ⟨.completes, "", ""⟩
      = .error .eofError := by
  refine ⟨rfl, by decide, rfl⟩

/-- C6 (amended): a `shell=true` request raises the configuration-rejection
`ValueError` in the worker before any child process is spawned and the job
body is never invoked; however the error escapes the worker loop, so no reply
is sent, the worker crashes serving no further requests, and the caller
observes an `EOFError` (a transport-level failure), not a configuration
error. -/
theorem c6_shell_kills_worker (j : Incoming) (rest : List Incoming)
    (hsh : j.req.shell = true) :
    listen (j :: rest) = ([], .crashed) ∧
    pyPopenRun j.req j.fds j.body = .error () ∧
    (∀ st args opts body, st.cnx ≠ none → opts.shell = true →
      Runner_call st args opts body = .error .eofError) := by
  refine ⟨?_, ?_, ?_⟩
  · simp [listen, pyPopenRun, hsh]
  · simp [pyPopenRun, hsh]
  · intro st args opts body hopen hs
    unfold Runner_call Runner_call_raw
    rw [expect_connected, if_neg hopen]
    have hr : (encodeRequest args opts).1.shell = true := hs
    simp [pyPopenRun, hr]

/-- C6 witness: the amended statement at a concrete `shell=true` envelope. -/
theorem c6_shell_kills_worker_witness :
    (⟨{ args := ["s.py"], shell := true }, [], ⟨.completes, "", ""⟩⟩ : Incoming).req.shell
      = true ∧
    listen [⟨{ args := ["s.py"], shell := true }, [], ⟨.completes, "", ""⟩⟩]
      = ([], .crashed) := by
  have h := c6_shell_kills_worker
    ⟨{ args := ["s.py"], shell := true }, [], ⟨.completes, "", ""⟩⟩ [] rfl
  exact ⟨rfl, h.1⟩

/-- C7: with no explicit `env` the child observes the worker's inherited
environment unchanged; with an explicit `env` mapping (unique keys, as for a
Python dict) the child's environment is exactly that mapping — full
replacement, every inherited-only key removed. -/
theorem c7_env_replacement (cur e : List (String × String))
    (hnd : (e.map Prod.fst).Nodup) :
    applyEnv cur none = cur ∧
    ∀ k, envLookup k (applyEnv cur (some e)) = envLookup k e := by
  refine ⟨rfl, fun k => ?_⟩
  show envLookup k (dictUpdate (cur.filter fun kv => (envLookup kv.1 e).isSome) e)
      = envLookup k e
  rw [envLookup_dictUpdate e _ k hnd]
  cases he : envLookup k e with
  | some v => rfl
  | none =>
    have hfil : envLookup k (cur.filter fun kv => (envLookup kv.1 e).isSome) = none := by
      induction cur with
      | nil => rfl
      | cons kv rest ih =>
        rw [List.filter_cons]
        by_cases hkeep : (envLookup kv.1 e).isSome
        · rw [if_pos (by simpa using hkeep)]
          by_cases hk : kv.1 = k
          · rw [hk] at hkeep
            rw [he] at hkeep
            simp at hkeep
          · rw [envLookup, if_neg hk]
            exact ih
        · rw [if_neg (by simpa using hkeep)]
          exact ih
    simp [hfil]

/-- C7 witness: an inherited environment with a parent-only key `HOME` and an
explicit mapping `LOLA=v` — the child sees exactly the mapping. -/
theorem c7_env_replacement_witness :
    ((([("LOLA", "v")] : List (String × String)).map Prod.fst).Nodup) ∧
    applyEnv [("HOME", "/root"), ("LOLA", "old")] none
      = [("HOME", "/root"), ("LOLA", "old")] ∧
    envLookup "HOME" (applyEnv [("HOME", "/root"), ("LOLA", "old")]
      (some [("LOLA", "v")])) = none ∧
    envLookup "LOLA" (applyEnv [("HOME", "/root"), ("LOLA", "old")]
      (some [("LOLA", "v")])) = some "v" := by
  have h := c7_env_replacement [("HOME", "/root"), ("LOLA", "old")] [("LOLA", "v")]
    (by simp)
  refine ⟨by simp, h.1, ?_, ?_⟩
  · rw [h.2 "HOME"]
    rfl
  · rw [h.2 "LOLA"]
    rfl

/-- C8: descriptor-transfer round trip.  The client encodes the three stdio
slots in slot order (stdin, stdout, stderr), indexing each real descriptor
into the transferred list; the worker resolves each wire slot against the
received positional array; the result is exactly the descriptor the caller
supplied for that slot, while sentinel slots (`None`, `STDOUT`, `PIPE`) pass
through unresolved. -/
theorem c8_descriptor_roundtrip (s1 s2 s3 : StdioArg) :
    resolveSlot (encodeSlots s1 s2 s3).2 (encodeSlots s1 s2 s3).1.1 = clientView s1 ∧
    resolveSlot (encodeSlots s1 s2 s3).2 (encodeSlots s1 s2 s3).1.2.1 = clientView s2 ∧
    resolveSlot (encodeSlots s1 s2 s3).2 (encodeSlots s1 s2 s3).1.2.2 = clientView s3 := by
  obtain ⟨d2, h2⟩ := mkfd_extends s2 (mkfd s1 []).2
  obtain ⟨d3, h3⟩ := mkfd_extends s3 (mkfd s2 (mkfd s1 []).2).2
  refine ⟨?_, ?_, ?_⟩
  · show resolveSlot (mkfd s3 (mkfd s2 (mkfd s1 []).2).2).2 (mkfd s1 []).1 = clientView s1
    rw [h3, h2, List.append_assoc]
    exact resolve_mkfd s1 [] (d2 ++ d3)
  · show resolveSlot (mkfd s3 (mkfd s2 (mkfd s1 []).2).2).2 (mkfd s2 (mkfd s1 []).2).1
        = clientView s2
    rw [h3]
    exact resolve_mkfd s2 (mkfd s1 []).2 d3
  · have h := resolve_mkfd s3 (mkfd s2 (mkfd s1 []).2).2 []
    show resolveSlot (mkfd s3 (mkfd s2 (mkfd s1 []).2).2).2
        (mkfd s3 (mkfd s2 (mkfd s1 []).2).2).1 = clientView s3
    simpa using h

/-- C9: when every request in the stream is well-formed (no `shell`), the
worker reaches clean end-of-stream, answers every request with a normal
reply, and a job body that faults yields the normal reply with exit code
255 — a nonzero exit code, never a transport-level failure. -/
theorem c9_fault_normal_result (js : List Incoming)
    (hsh : ∀ j ∈ js, j.req.shell = false) :
    (listen js).2 = .cleanEOF ∧
    (listen js).1 = js.map (fun j => jobReply j.req j.fds j.body) ∧
    (∀ j ∈ js, ∀ tb, j.body.outcome = .fault tb →
      (jobReply j.req j.fds j.body).exitCode = 255 ∧
      (jobReply j.req j.fds j.body).exitCode ≠ 0) := by
  refine ⟨?_, ?_, ?_⟩
  · induction js with
    | nil => rfl
    | cons j rest ih =>
      have hj : j.req.shell = false := hsh j (List.mem_cons_self j rest)
      simp only [listen, pyPopenRun, hj, if_false]
      exact ih (fun x hx => hsh x (List.mem_cons_of_mem j hx))
  · induction js with
    | nil => rfl
    | cons j rest ih =>
      have hj : j.req.shell = false := hsh j (List.mem_cons_self j rest)
      simp only [listen, pyPopenRun, hj, if_false, List.map_cons]
      rw [ih (fun x hx => hsh x (List.mem_cons_of_mem j hx))]
      simp
  · intro j _ tb ht
    constructor
    · rw [jobReply_exitCode, ht]
      rfl
    · rw [jobReply_exitCode, ht]
      simp [exec_python_exit]

/-- C9 witness: a stream of one faulting job and one ordinary job — the
worker answers both and ends cleanly, the faulting reply has exit code 255. -/
theorem c9_fault_normal_result_witness :
    (∀ j ∈ [(⟨{ args := ["f.py"] }, [], ⟨.fault "tb", "", ""⟩⟩ : Incoming),
            ⟨{ args := ["g.py"] }, [], ⟨.completes, "", ""⟩⟩], j.req.shell = false) ∧
    (listen [⟨{ args := ["f.py"] }, [], ⟨.fault "tb", "", ""⟩⟩,
             ⟨{ args := ["g.py"] }, [], ⟨.completes, "", ""⟩⟩]).2 = .cleanEOF ∧
    (listen [⟨{ args := ["f.py"] }, [], ⟨.fault "tb", "", ""⟩⟩,
             ⟨{ args := ["g.py"] }, [], ⟨.completes, "", ""⟩⟩]).1.length = 2 := by
  have h := c9_fault_normal_result
    [⟨{ args := ["f.py"] }, [], ⟨.fault "tb", "", ""⟩⟩,
     ⟨{ args := ["g.py"] }, [], ⟨.completes, "", ""⟩⟩] (by decide)
  refine ⟨by decide, h.1, ?_⟩
  rw [h.2.1]
  rfl

/-- C10: `close()` on an open Runner always reaches the Closed state, even
when closing the underlying connection or listener raises — both references
are cleared unconditionally, the exception (if any) propagates, and every
later operation raises the closed-runner `ValueError`. -/
theorem c10_close_always_closes (st : RunnerState) (f1 f2 : Bool)
    (hopen : st.cnx ≠ none) :
    (Runner_close st f1 f2).2 = ⟨none, none⟩ ∧
    ((f1 = false ∧ f2 = false) ∨ (Runner_close st f1 f2).1 = .error .closeFault) ∧
    (∀ args opts body,
        Runner_call (Runner_close st f1 f2).2 args opts body = .error .runnerClosed) ∧
    (∀ g1 g2, (Runner_close (Runner_close st f1 f2).2 g1 g2).1
        = .error .runnerClosed) := by
  have hst : (Runner_close st f1 f2).2 = ⟨none, none⟩ := by
    simp only [Runner_close, if_neg hopen]
    cases f2 <;> cases f1 <;> simp
  refine ⟨hst, ?_, ?_, ?_⟩
  · cases f2 with
    | true => right; simp [Runner_close, hopen]
    | false =>
      cases f1 with
      | true => right; simp [Runner_close, hopen]
      | false => left; exact ⟨rfl, rfl⟩
  · intro args opts body
    rw [hst]
    simp [Runner_call, Runner_call_raw, expect_connected]
  · intro g1 g2
    rw [hst]
    simp [Runner_close]

/-- C10 witness: a `close` whose underlying connection close faults still
clears both references and leaves every later operation failing closed. -/
theorem c10_close_always_closes_witness :
    RunnerState.openState.cnx ≠ none ∧
    (Runner_close .openState true false).2 = ⟨none, none⟩ ∧
    (Runner_close (Runner_close .openState true false).2 false false).1
      = .error .runnerClosed := by
  have h := c10_close_always_closes .openState true false (by decide)
  exact ⟨by decide, h.1, h.2.2.2 false false⟩

end Lola
